import Mathlib

/-!
Verification of the Miro excerpt (config store, startup sequencer).

This file shallowly embeds `src/tv/portable/config.py` and
`src/tv/portable/startup.py`:

* Python values held in the preferences dictionary become the inductive
  `Value`; the module-level dict `__data`, the callback set `__callbacks`
  and the mutex `__lock` become the explicit state `ConfigState`.
* The platform backend `platformcfg` is not part of the excerpt; it is
  modelled as an oracle record `PlatformCfg` (its `load`/`save`/`get`/`set`
  may return data or raise, per the spec's collaborator contract).
* A Python call that may raise, return, or block on the non-reentrant lock
  is modelled by `PyResult`: `raised` carries the state at the moment the
  exception escapes (in particular whether the lock is still held) and
  `blocked` models acquiring an already-held non-reentrant lock.
* Callbacks are opaque elements of a type `κ`; whether a callback raises
  when invoked is an oracle `cbFails`.
-/

namespace Miro

/-- A Python value stored in the preferences dictionary. -/
inductive Value where
  | none
  | bool (b : Bool)
  | int (n : Int)
  | str (s : String)
  deriving DecidableEq

/-- `class Pref` from config.py: an immutable preference descriptor. -/
structure Pref where
  key : String
  default : Value
  platformSpecific : Bool
  deriving DecidableEq

/-- Descriptor constants from config.py (the ones the claims exercise). -/
def NO_FULLSCREEN_ALERT : Pref := ⟨"noFullscreenAlert", Value.bool false, false⟩

def CHECK_CHANNELS_EVERY_X_MN : Pref := ⟨"checkChannelsEveryXMn", Value.int 60, false⟩

def LIMIT_UPSTREAM : Pref := ⟨"limitUpstream", Value.bool true, false⟩

def MOVIES_DIRECTORY : Pref := ⟨"MoviesDirectory", Value.none, true⟩

def SUPPORT_DIRECTORY : Pref := ⟨"SupportDirectory", Value.none, true⟩

/-- The in-memory preferences dictionary `__data` (when loaded). -/
abbrev PrefData := List (String × Value)

/-- Python dict lookup `d.get(key, default)` support: first binding wins. -/
def lookupKey (key : String) : PrefData → Option Value
  | [] => Option.none
  | (k, v) :: rest => if k = key then Option.some v else lookupKey key rest

/-- Python dict assignment `d[key] = value`: replace the binding if the key
is present, otherwise append it. -/
def setKey (key : String) (v : Value) : PrefData → PrefData
  | [] => [(key, v)]
  | (k, w) :: rest =>
      if k = key then (key, v) :: rest else (k, w) :: setKey key v rest

/-- The `platformcfg` backend, an external collaborator: `load` may raise or
return `None` or a saved mapping; `save`/`get`/`set` may raise.  (`setResult`
exists so that we can state that `config.set` never consults it.) -/
structure PlatformCfg where
  loadResult : Except Unit (Option PrefData)
  saveResult : PrefData → Except Unit Unit
  getResult : Pref → Except Unit Value
  setResult : Pref → Value → Except Unit Unit

/-- The module state of config.py: `__data` (None until loaded),
`__callbacks` (a set, kept as a duplicate-free list), `__lock`. -/
structure ConfigState (κ : Type) where
  data : Option PrefData
  callbacks : List κ
  lockHeld : Bool
  deriving DecidableEq

/-- Outcome of a Python call against the store: normal return, an escaping
exception (carrying the state it leaves behind, lock included), or blocking
forever on the non-reentrant lock. -/
inductive PyResult (σ : Type) (α : Type) where
  | ok (s : σ) (v : α)
  | raised (s : σ)
  | blocked
  deriving DecidableEq

namespace Config

variable {κ : Type}

/-- `config.addChangeCallback`: `__callbacks.add(callback)` (set insert). -/
def addChangeCallback [DecidableEq κ] (c : κ) (s : ConfigState κ) : ConfigState κ :=
  if c ∈ s.callbacks then s else { s with callbacks := s.callbacks ++ [c] }

/-- `config.removeChangeCallback`: `__callbacks.discard(callback)`. -/
def removeChangeCallback [DecidableEq κ] (c : κ) (s : ConfigState κ) : ConfigState κ :=
  { s with callbacks := s.callbacks.filter (fun x => x ≠ c) }

/-- `config.load`: acquire the lock, `__data = platformcfg.load()`, replace a
`None` result with an empty dict, release.  A backend exception escapes with
the lock still held and `__data` unassigned. -/
def load (b : PlatformCfg) (s : ConfigState κ) : PyResult (ConfigState κ) Unit :=
  if s.lockHeld then PyResult.blocked
  else
    match b.loadResult with
    | Except.error _ => PyResult.raised { s with lockHeld := true }
    | Except.ok d =>
        let newData := match d with
          | Option.none => []
          | Option.some m => m
        PyResult.ok { s with data := Option.some newData, lockHeld := false } ()

/-- `config.__checkValidity`: `if __data == None: load()`. -/
def checkValidity (b : PlatformCfg) (s : ConfigState κ) : PyResult (ConfigState κ) Unit :=
  match s.data with
  | Option.some _ => PyResult.ok s ()
  | Option.none => load b s

/-- `config.save`: check validity, acquire, `platformcfg.save(__data)`,
release.  A backend exception escapes with the lock still held. -/
def save (b : PlatformCfg) (s : ConfigState κ) : PyResult (ConfigState κ) Unit :=
  match checkValidity b s with
  | PyResult.blocked => PyResult.blocked
  | PyResult.raised t => PyResult.raised t
  | PyResult.ok t _ =>
      if t.lockHeld then PyResult.blocked
      else
        match b.saveResult (t.data.getD []) with
        | Except.error _ => PyResult.raised { t with lockHeld := true }
        | Except.ok _ => PyResult.ok t ()

/-- `config.get`: check validity, acquire; a platform-specific descriptor is
read from the backend, any other from `__data` with the descriptor's default
as fallback; release. -/
def get (b : PlatformCfg) (s : ConfigState κ) (descriptor : Pref) :
    PyResult (ConfigState κ) Value :=
  match checkValidity b s with
  | PyResult.blocked => PyResult.blocked
  | PyResult.raised t => PyResult.raised t
  | PyResult.ok t _ =>
      if t.lockHeld then PyResult.blocked
      else
        if descriptor.platformSpecific then
          match b.getResult descriptor with
          | Except.error _ => PyResult.raised { t with lockHeld := true }
          | Except.ok v => PyResult.ok t v
        else
          PyResult.ok t ((lookupKey descriptor.key (t.data.getD [])).getD descriptor.default)

/-- `config.__notifyListeners`: invoke each registered callback in turn with
`(key, value)`.  Returns the callbacks actually invoked and whether one of
them raised (stopping the iteration). -/
def notifyListeners (cbFails : κ → String → Value → Bool) (key : String) (v : Value) :
    List κ → List κ × Bool
  | [] => ([], false)
  | c :: rest =>
      if cbFails c key v then ([c], true)
      else
        let r := notifyListeners cbFails key v rest
        (c :: r.1, r.2)

/-- `config.set`: check validity, acquire, `__data[descriptor.key] = value`,
notify every callback while holding the lock, release.  A raising callback
escapes with the lock held and the dict already updated.  Returns the list
of callbacks invoked. -/
def set (b : PlatformCfg) (cbFails : κ → String → Value → Bool)
    (s : ConfigState κ) (descriptor : Pref) (v : Value) :
    PyResult (ConfigState κ) (List κ) :=
  match checkValidity b s with
  | PyResult.blocked => PyResult.blocked
  | PyResult.raised t => PyResult.raised t
  | PyResult.ok t _ =>
      if t.lockHeld then PyResult.blocked
      else
        let t2 : ConfigState κ :=
          { t with data := Option.some (setKey descriptor.key v (t.data.getD [])) }
        let r := notifyListeners cbFails descriptor.key v t2.callbacks
        if r.2 then PyResult.raised { t2 with lockHeld := true }
        else PyResult.ok t2 r.1

end Config

/-! ## Startup sequencer (`src/tv/portable/startup.py`) -/

/-- A signal emitted on the signal bus (`signals.system`). -/
inductive Sig where
  | startupFailure (summary description : String)
  | startupSuccess
  | failed (msg : String)
  deriving DecidableEq

/-- `Sig.isFailure`: recognises a `startup_failure` signal. -/
def Sig.isFailure : Sig → Bool
  | Sig.startupFailure _ _ => true
  | _ => false

/-- A log record (only warning-level records matter to the claims). -/
inductive LogEntry where
  | warn (msg : String)
  deriving DecidableEq

/-- A task handed to the event loop (`addIdle` / `addUrgentCall`). -/
inductive Task where
  | finalizeStartup
  | parseCommandLineArgs
  deriving DecidableEq

/-- How the body of a decorated startup phase terminates: normal return, a
raised `StartupError(summary, description)`, or any other uncaught fault
(carrying its traceback text). -/
inductive PhaseOutcome where
  | ok
  | startupError (summary description : String)
  | otherError (tb : String)
  deriving DecidableEq

/-- What running a phase body did: the signals it emitted itself, the event
loop tasks it scheduled, and how it terminated. -/
structure PhaseRun where
  sigs : List Sig
  tasks : List Task
  outcome : PhaseOutcome
  deriving DecidableEq

/-- What the `startup_function`-wrapped phase produced overall: signals (the
body's plus any the decorator added), scheduled tasks, warning log records,
and whether an exception escaped to the caller. -/
structure WrappedRun where
  sigs : List Sig
  tasks : List Task
  logs : List LogEntry
  raisedToCaller : Bool
  deriving DecidableEq

def unknownErrorSummary : String := "Unknown Error"

/-- The generic description built in the decorator's catch-all branch; its
url placeholder is filled from `config.get(prefs.BUG_REPORT_URL)`. -/
def unknownErrorDescription (url : String) : String :=
  "An unknown error prevented Miro from startup.  Please file a bug report at "
    ++ url ++ "."

/-- `startup.startup_function`: the decorator.  `except StartupError` emits a
failure signal with the error's own summary/description; the bare `except`
logs the traceback at warning level and emits the generic failure signal.
Nothing is ever re-raised to the caller. -/
def startup_function (run : PhaseRun) (bugReportURL : String) : WrappedRun :=
  match run.outcome with
  | PhaseOutcome.ok =>
      ⟨run.sigs, run.tasks, [], false⟩
  | PhaseOutcome.startupError s d =>
      ⟨run.sigs ++ [Sig.startupFailure s d], run.tasks, [], false⟩
  | PhaseOutcome.otherError tb =>
      ⟨run.sigs ++ [Sig.startupFailure unknownErrorSummary (unknownErrorDescription bugReportURL)],
       run.tasks,
       [LogEntry.warn ("Unknown startup error: " ++ tb)],
       false⟩

/-! ### movies_directory_gone -/

/-- What the filesystem says about the movies directory: whether
`os.path.exists` is true, and what `os.listdir` yields (`Option.none`
models an `OSError`). -/
structure DirState where
  present : Bool
  listing : Option (List String)
  deriving DecidableEq

/-- One entry of `views.remoteDownloads`. -/
structure RemoteDownload where
  isFinished : Bool
  filename : String
  deriving DecidableEq

/-- `os.path.sep` on the modelled platform. -/
def pathSep : String := "/"

/-- Python `s.startswith(pre)`, computed on the character lists. -/
def strStartswith (pre s : String) : Bool :=
  pre.data.isPrefixOf s.data

/-- Python `s.endswith(suf)`, computed on the character lists. -/
def strEndswith (suf s : String) : Bool :=
  suf.data.isSuffixOf s.data

/-- `startup.movies_directory_gone`.  `movies_dir` stands for the already
expanded `config.get(prefs.MOVIES_DIRECTORY)`; a separator is appended when
missing; a nonexistent or unlistable directory is gone; a nonempty one is
present; an empty one is gone exactly when some finished download's filename
starts with the directory path. -/
def movies_directory_gone (dir : DirState) (downloads : List RemoteDownload)
    (movies_dir : String) : Bool :=
  let md := if strEndswith pathSep movies_dir then movies_dir else movies_dir ++ pathSep
  if !dir.present then true
  else
    match dir.listing with
    | Option.none => true
    | Option.some contents =>
        if !contents.isEmpty then false
        else downloads.any (fun d => d.isFinished && strStartswith md d.filename)

/-! ### finish_startup / finalize_startup -/

/-- How `storedatabase.LiveStorage()` (the database restore) terminates:
success, `DatabaseTooNewError`, or some other fault. -/
inductive RestoreOutcome where
  | ok
  | tooNew
  | fault (tb : String)
  deriving DecidableEq

def dbTooNewSummary : String := "Database too new"

/-- The description paired with `dbTooNewSummary`; its appname placeholder is
filled from `config.get(prefs.SHORT_APP_NAME)`. -/
def dbTooNewDescription (appname : String) : String :=
  "You have a database that was saved with a newer version of " ++ appname
    ++ ". You must download the latest version of " ++ appname ++ " and run that."

/-- The body of `startup.finish_startup`: restore the database (translating
`DatabaseTooNewError` into a `StartupError` with the summary/description
built in the handler), then either invoke the movies-gone handler (whose
emitted signals are `handlerSigs`) or schedule `finalize_startup` as an
urgent call. -/
def finish_startup_body (restore : RestoreOutcome) (appname : String)
    (moviesGone : Bool) (handlerSigs : List Sig) : PhaseRun :=
  match restore with
  | RestoreOutcome.tooNew =>
      ⟨[], [], PhaseOutcome.startupError dbTooNewSummary (dbTooNewDescription appname)⟩
  | RestoreOutcome.fault tb => ⟨[], [], PhaseOutcome.otherError tb⟩
  | RestoreOutcome.ok =>
      if moviesGone then ⟨handlerSigs, [], PhaseOutcome.ok⟩
      else ⟨[], [Task.finalizeStartup], PhaseOutcome.ok⟩

/-- `startup.finish_startup`: the body wrapped by `startup_function`, with
the movies-directory check performed by `movies_directory_gone`. -/
def finish_startup (restore : RestoreOutcome) (appname : String) (dir : DirState)
    (downloads : List RemoteDownload) (movies_dir : String) (handlerSigs : List Sig)
    (bugReportURL : String) : WrappedRun :=
  startup_function
    (finish_startup_body restore appname
      (movies_directory_gone dir downloads movies_dir) handlerSigs)
    bugReportURL

/-- The body of `startup.finalize_startup`, as a straight-line sequence of 13
steps (downloader startup, global feeds, tabs, search engines, theme, message
handler, auto downloader, reconnect, expire, icon clear, movie data thread,
`signals.system.startup_success()` at step 11, scheduling of the
command-line-args idle task at step 12).  `faultAt = some i` injects a
non-`StartupError` fault at step `i`: the steps before `i` have run, the rest
have not. -/
def finalize_startup_body (faultAt : Option Nat) (tb : String) : PhaseRun :=
  match faultAt with
  | Option.none =>
      ⟨[Sig.startupSuccess], [Task.parseCommandLineArgs], PhaseOutcome.ok⟩
  | Option.some i =>
      ⟨if 11 < i then [Sig.startupSuccess] else [], [], PhaseOutcome.otherError tb⟩

/-- `startup.finalize_startup`: the body wrapped by `startup_function`. -/
def finalize_startup (faultAt : Option Nat) (tb : String) (bugReportURL : String) :
    WrappedRun :=
  startup_function (finalize_startup_body faultAt tb) bugReportURL

/-! ### setup_global_feed -/

/-- A feed object in the database, identified by an object id and its URL. -/
structure Feed where
  id : Nat
  url : String
  deriving DecidableEq

/-- `startup.setup_global_feed`: filter the feed view by URL; spawn the feed
when none matches (with a fresh object id); when more than one matches,
remove every match but the first and emit `signals.system.failed`.  Returns
the resulting database and the signals emitted. -/
def setup_global_feed (url : String) (freshId : Nat) (db : List Feed) :
    List Feed × List Sig :=
  let feedView := db.filter (fun f => f.url = url)
  if feedView.length = 0 then
    (db ++ [⟨freshId, url⟩], [])
  else if 1 < feedView.length then
    let extras := feedView.drop 1
    (db.filter (fun f => f ∉ extras),
     [Sig.failed ("Too many db objects for " ++ url)])
  else
    (db, [])

/-! ## Helper lemmas for the preference store -/

theorem lookupKey_setKey_self (k : String) (v : Value) (l : PrefData) :
    lookupKey k (setKey k v l) = Option.some v := by
  induction l with
  | nil => simp [setKey, lookupKey]
  | cons p rest ih =>
      obtain ⟨k0, w⟩ := p
      by_cases hk : k0 = k
      · simp [setKey, hk, lookupKey]
      · simp [setKey, hk, lookupKey, ih]

theorem lookupKey_setKey_ne (k k' : String) (v : Value) (l : PrefData)
    (h : k' ≠ k) :
    lookupKey k' (setKey k v l) = lookupKey k' l := by
  have hk : ¬ k = k' := fun hh => h hh.symm
  induction l with
  | nil => simp [setKey, lookupKey, hk]
  | cons p rest ih =>
      obtain ⟨k0, w⟩ := p
      by_cases h0 : k0 = k
      · subst h0
        simp [setKey, lookupKey, hk]
      · simp [setKey, h0, lookupKey, ih]

theorem notifyListeners_complete {κ : Type} (cbFails : κ → String → Value → Bool)
    (key : String) (v : Value) (l : List κ)
    (h : (Config.notifyListeners cbFails key v l).2 = false) :
    (Config.notifyListeners cbFails key v l).1 = l := by
  induction l with
  | nil => rfl
  | cons c rest ih =>
      by_cases hc : cbFails c key v
      · simp [Config.notifyListeners, hc] at h
      · simp [Config.notifyListeners, hc] at h ⊢
        exact ih h

theorem checkValidity_ok_shape {κ : Type} {b : PlatformCfg} {s t : ConfigState κ}
    {u : Unit} (h : Config.checkValidity b s = PyResult.ok t u) :
    t.callbacks = s.callbacks ∧
      ∃ m, t.data = Option.some m ∧
        (s.data = Option.some m ∨ s.data = Option.none) := by
  unfold Config.checkValidity at h
  cases hsd : s.data with
  | some m =>
      rw [hsd] at h
      cases h
      exact ⟨rfl, m, hsd, Or.inl rfl⟩
  | none =>
      rw [hsd] at h
      unfold Config.load at h
      by_cases hlk : s.lockHeld
      · simp [hlk] at h
      · simp only [hlk, if_false, Bool.false_eq_true] at h
        cases hlr : b.loadResult with
        | error e => rw [hlr] at h; cases h
        | ok d =>
            rw [hlr] at h
            cases h
            exact ⟨rfl, _, rfl, Or.inr rfl⟩

theorem set_ok_shape {κ : Type} [DecidableEq κ] {b : PlatformCfg}
    {cbFails : κ → String → Value → Bool} {s s' : ConfigState κ} {d : Pref}
    {v : Value} {inv : List κ}
    (h : Config.set b cbFails s d v = PyResult.ok s' inv) :
    s'.callbacks = s.callbacks ∧ inv = s.callbacks ∧ s'.lockHeld = false ∧
      ∃ m0, s'.data = Option.some (setKey d.key v m0) := by
  unfold Config.set at h
  cases hcv : Config.checkValidity b s with
  | blocked => rw [hcv] at h; cases h
  | raised t => rw [hcv] at h; cases h
  | ok t u =>
      rw [hcv] at h
      obtain ⟨hcb, m, hm, _⟩ := checkValidity_ok_shape hcv
      cases hlk : t.lockHeld with
      | true => simp [hlk] at h
      | false =>
        simp only [hlk, if_false, Bool.false_eq_true] at h
        cases hr : (Config.notifyListeners cbFails d.key v t.callbacks).2 with
        | true => simp only [hr, if_true] at h; cases h
        | false =>
            simp only [hr, Bool.false_eq_true, if_false] at h
            cases h
            refine ⟨hcb, ?_, rfl, t.data.getD [], rfl⟩
            rw [← hcb]
            exact notifyListeners_complete cbFails d.key v t.callbacks hr

/-! ## Claim C2: set-then-get roundtrip -/

/-- Fixture: a backend whose `get` answers every platform-specific read with
the string "backend-value". -/
def bBackendValue : PlatformCfg :=
  ⟨Except.ok (Option.some []),
   fun _ => Except.ok (),
   fun _ => Except.ok (Value.str "backend-value"),
   fun _ _ => Except.ok ()⟩

/-- Fixture: no registered callback ever raises. -/
def cbNone : Unit → String → Value → Bool := fun _ _ _ => false

/-- Fixture: a loaded store with empty data, no callbacks, lock free. -/
def sLoaded : ConfigState Unit := ⟨Option.some [], [], false⟩

/-- Fixture: the store state right after the C2 counterexample's `set`. -/
def sAfterMoviesSet : ConfigState Unit :=
  ⟨Option.some [("MoviesDirectory", Value.str "mine")], [], false⟩

/-- C2 counterexample: for the platform-specific descriptor
`MOVIES_DIRECTORY`, `set` stores the value in the in-memory dict but `get`
delegates to the platform backend, so set-then-get returns the backend's
value, not the one just set. -/
theorem C2_counterexample :
    Config.set bBackendValue cbNone sLoaded MOVIES_DIRECTORY (Value.str "mine")
        = PyResult.ok sAfterMoviesSet [] ∧
      Config.get bBackendValue sAfterMoviesSet MOVIES_DIRECTORY
        = PyResult.ok sAfterMoviesSet (Value.str "backend-value") ∧
      Value.str "backend-value" ≠ Value.str "mine" := by
  refine ⟨by decide, by decide, by decide⟩

/-- C2 (amended): for every descriptor with `platformSpecific = false`, a
successful `set(D, v)` followed immediately by `get(D)` returns `v` (and
leaves the state unchanged); for platform-specific descriptors the read is
forwarded to the backend instead. -/
theorem set_then_get_roundtrip {κ : Type} [DecidableEq κ] (b : PlatformCfg)
    (cbFails : κ → String → Value → Bool) (s s' : ConfigState κ) (d : Pref)
    (v : Value) (inv : List κ) (hps : d.platformSpecific = false)
    (h : Config.set b cbFails s d v = PyResult.ok s' inv) :
    Config.get b s' d = PyResult.ok s' v := by
  obtain ⟨-, -, hlk, m0, hm⟩ := set_ok_shape h
  obtain ⟨dta, cbs, lk⟩ := s'
  simp only at hlk hm
  subst hlk hm
  simp [Config.get, Config.checkValidity, hps, lookupKey_setKey_self]

/-- Fixture: the store state right after the C2 witness's `set`. -/
def sAfterAlertSet : ConfigState Unit :=
  ⟨Option.some [("noFullscreenAlert", Value.bool true)], [], false⟩

/-- C2 witness: concrete roundtrip through `NO_FULLSCREEN_ALERT`. -/
theorem set_then_get_roundtrip_witness :
    Config.get bBackendValue sAfterAlertSet NO_FULLSCREEN_ALERT
      = PyResult.ok sAfterAlertSet (Value.bool true) :=
  set_then_get_roundtrip bBackendValue cbNone sLoaded sAfterAlertSet
    NO_FULLSCREEN_ALERT (Value.bool true) [] (by decide) (by decide)

/-! ## Claim C3: backend errors during load -/

/-- Fixture: a backend whose `load` raises. -/
def bLoadErr : PlatformCfg :=
  ⟨Except.error (),
   fun _ => Except.ok (),
   fun _ => Except.ok Value.none,
   fun _ _ => Except.ok ()⟩

/-- Fixture: the fresh (never loaded) store state, lock free. -/
def sFresh : ConfigState Unit := ⟨Option.none, [], false⟩

/-- C3 counterexample: a backend error raised during `load()` is NOT
swallowed — `load` propagates it to the caller (and leaves the lock held),
because the source has no try/except around `platformcfg.load()`. -/
theorem C3_counterexample :
    Config.load bLoadErr sFresh
      = PyResult.raised (⟨Option.none, [], true⟩ : ConfigState Unit) := by
  decide

/-- C3 (amended): only the backend returning no data (`None`) is treated as
"no saved preferences": the store degrades to an empty in-memory mapping and
subsequent gets of non-platform-specific descriptors return their defaults.
A backend exception raised during `load` propagates to the caller, with the
lock still held. -/
theorem load_degrades_only_on_no_data {κ : Type} [DecidableEq κ]
    (b : PlatformCfg) (s : ConfigState κ) (hlk : s.lockHeld = false) :
    (b.loadResult = Except.ok Option.none →
      Config.load b s = PyResult.ok { s with data := Option.some [] } () ∧
      ∀ d : Pref, d.platformSpecific = false →
        Config.get b { s with data := Option.some [] } d
          = PyResult.ok { s with data := Option.some [] } d.default) ∧
    (b.loadResult = Except.error () →
      Config.load b s = PyResult.raised { s with lockHeld := true }) := by
  obtain ⟨dta, cbs, lk⟩ := s
  simp only at hlk
  subst hlk
  constructor
  · intro hload
    constructor
    · simp [Config.load, hload]
    · intro d hps
      simp [Config.get, Config.checkValidity, hps, lookupKey]
  · intro hload
    simp [Config.load, hload]

/-- Fixture: a backend with no saved data (`load` returns `None`). -/
def bNoData : PlatformCfg :=
  ⟨Except.ok Option.none,
   fun _ => Except.ok (),
   fun _ => Except.ok Value.none,
   fun _ _ => Except.ok ()⟩

/-- C3 witness: the degradation branch at a concrete fresh store whose
backend has no saved data. -/
theorem load_degrades_only_on_no_data_witness :
    Config.load bNoData sFresh
        = PyResult.ok (⟨Option.some [], [], false⟩ : ConfigState Unit) () ∧
      Config.get bNoData (⟨Option.some [], [], false⟩ : ConfigState Unit)
          CHECK_CHANNELS_EVERY_X_MN
        = PyResult.ok (⟨Option.some [], [], false⟩ : ConfigState Unit) (Value.int 60) := by
  refine ⟨?_, ?_⟩
  · exact ((load_degrades_only_on_no_data bNoData sFresh rfl).1 rfl).1
  · exact ((load_degrades_only_on_no_data bNoData sFresh rfl).1
      rfl).2 CHECK_CHANNELS_EVERY_X_MN (by decide)

/-! ## Claim C6: defaults before any set -/

/-- Fixture: a backend whose saved data already contains a value for
`checkChannelsEveryXMn`. -/
def bSavedPrefs : PlatformCfg :=
  ⟨Except.ok (Option.some [("checkChannelsEveryXMn", Value.int 42)]),
   fun _ => Except.ok (),
   fun _ => Except.ok Value.none,
   fun _ _ => Except.ok ()⟩

/-- C6 counterexample: with saved preferences in the backend, `get` of a
non-platform-specific descriptor before any `set` in this process returns
the persisted value, not the descriptor's default. -/
theorem C6_counterexample :
    CHECK_CHANNELS_EVERY_X_MN.platformSpecific = false ∧
      Config.get bSavedPrefs sFresh CHECK_CHANNELS_EVERY_X_MN
        = PyResult.ok
            (⟨Option.some [("checkChannelsEveryXMn", Value.int 42)], [], false⟩ :
              ConfigState Unit)
            (Value.int 42) ∧
      Value.int 42 ≠ CHECK_CHANNELS_EVERY_X_MN.default := by
  refine ⟨by decide, by decide, by decide⟩

/-- C6 (amended): for a descriptor with `platformSpecific = false`, `get`
never fails on a loaded, unlocked store — it always returns normally, with
the in-memory value for the key or the descriptor's default when the key is
absent; in particular it returns the default before any `set` provided the
loaded data has no entry for the key (e.g. the backend had no saved data). -/
theorem get_returns_default_before_set {κ : Type} [DecidableEq κ]
    (b : PlatformCfg) (s : ConfigState κ) (m : PrefData) (d : Pref)
    (hps : d.platformSpecific = false) (hlk : s.lockHeld = false) :
    (s.data = Option.some m →
      Config.get b s d = PyResult.ok s ((lookupKey d.key m).getD d.default)) ∧
    (s.data = Option.none → b.loadResult = Except.ok Option.none →
      Config.get b s d = PyResult.ok { s with data := Option.some [] } d.default) := by
  obtain ⟨dta, cbs, lk⟩ := s
  simp only at hlk
  subst hlk
  constructor
  · intro hd
    simp only at hd
    subst hd
    simp [Config.get, Config.checkValidity, hps]
  · intro hd hload
    simp only at hd
    subst hd
    simp [Config.get, Config.checkValidity, Config.load, hload, hps, lookupKey]

/-- C6 witness: concrete fresh store, no saved data, so `get` of
`CHECK_CHANNELS_EVERY_X_MN` yields the default 60. -/
theorem get_returns_default_before_set_witness :
    Config.get bNoData sFresh CHECK_CHANNELS_EVERY_X_MN
      = PyResult.ok (⟨Option.some [], [], false⟩ : ConfigState Unit)
          (Value.int 60) :=
  (get_returns_default_before_set bNoData sFresh []
    CHECK_CHANNELS_EVERY_X_MN (by decide) rfl).2 rfl rfl

/-! ## Claim C8: callback registration has set semantics -/

/-- C8: duplicate registration via `addChangeCallback` is a no-op,
`removeChangeCallback` of a non-member is a no-op, and after registering a
callback twice a successful `set` invokes it exactly once. -/
theorem callback_set_semantics {κ : Type} [DecidableEq κ] (c : κ)
    (b : PlatformCfg) (cbFails : κ → String → Value → Bool)
    (s s' : ConfigState κ) (d : Pref) (v : Value) (inv : List κ) :
    (Config.addChangeCallback c (Config.addChangeCallback c s)
        = Config.addChangeCallback c s) ∧
    (c ∉ s.callbacks → Config.removeChangeCallback c s = s) ∧
    (s.callbacks.count c ≤ 1 →
      Config.set b cbFails (Config.addChangeCallback c s) d v = PyResult.ok s' inv →
      inv.count c = 1) := by
  refine ⟨?_, ?_, ?_⟩
  · by_cases hc : c ∈ s.callbacks
    · simp [Config.addChangeCallback, hc]
    · simp [Config.addChangeCallback, hc]
  · intro hc
    obtain ⟨dta, cbs, lk⟩ := s
    simp only at hc
    simp only [Config.removeChangeCallback, ConfigState.mk.injEq, true_and, and_true]
    exact List.filter_eq_self.mpr
      (fun a ha => by
        simp only [ne_eq, decide_eq_true_eq]
        exact fun hEq => hc (hEq ▸ ha))
  · intro hcount h
    obtain ⟨-, hinv, -, -⟩ := set_ok_shape h
    subst hinv
    by_cases hc : c ∈ s.callbacks
    · have h1 : 0 < s.callbacks.count c := List.count_pos_iff.mpr hc
      simp only [Config.addChangeCallback, hc, if_true]
      omega
    · have h0 : s.callbacks.count c = 0 := List.count_eq_zero.mpr hc
      simp [Config.addChangeCallback, hc, List.count_append, h0]

/-- Fixture: a loaded store with no callbacks, over `Nat` callback handles. -/
def sCb : ConfigState Nat := ⟨Option.some [], [], false⟩

/-- Fixture: no `Nat`-handled callback ever raises. -/
def cbNeverNat : Nat → String → Value → Bool := fun _ _ _ => false

/-- C8 witness: concrete double registration of callback 0 followed by a
`set` that invokes it exactly once. -/
theorem callback_set_semantics_witness :
    (Config.addChangeCallback 0 (Config.addChangeCallback 0 sCb)
        = Config.addChangeCallback 0 sCb) ∧
      Config.removeChangeCallback 0 sCb = sCb ∧
      List.count 0 [0] = 1 :=
  ⟨(callback_set_semantics 0 bNoData cbNeverNat sCb
      (⟨Option.some [("noFullscreenAlert", Value.bool true)], [0], false⟩ : ConfigState Nat)
      NO_FULLSCREEN_ALERT (Value.bool true) [0]).1,
   (callback_set_semantics 0 bNoData cbNeverNat sCb
      (⟨Option.some [("noFullscreenAlert", Value.bool true)], [0], false⟩ : ConfigState Nat)
      NO_FULLSCREEN_ALERT (Value.bool true) [0]).2.1 (by decide),
   (callback_set_semantics 0 bNoData cbNeverNat sCb
      (⟨Option.some [("noFullscreenAlert", Value.bool true)], [0], false⟩ : ConfigState Nat)
      NO_FULLSCREEN_ALERT (Value.bool true) [0]).2.2 (by decide) (by decide)⟩

/-! ## Claim C9: exceptions leave the lock held -/

/-- C9: a backend error in `save`, a backend error in a platform-specific
`get`, or a raising change callback in `set` propagates with the lock still
held; in the `set` case the in-memory dict already holds the new value; and
on a state whose lock is held, every subsequent `load`/`save`/`get`/`set`
blocks forever on the non-reentrant lock. -/
theorem exception_leaves_lock_held {κ : Type} [DecidableEq κ]
    (b : PlatformCfg) (cbFails : κ → String → Value → Bool)
    (s : ConfigState κ) (m : PrefData) (d : Pref) (v : Value)
    (hlk : s.lockHeld = false) (hd : s.data = Option.some m) :
    (b.saveResult m = Except.error () →
        Config.save b s = PyResult.raised { s with lockHeld := true }) ∧
    (d.platformSpecific = true → b.getResult d = Except.error () →
        Config.get b s d = PyResult.raised { s with lockHeld := true }) ∧
    ((Config.notifyListeners cbFails d.key v s.callbacks).2 = true →
        Config.set b cbFails s d v
            = PyResult.raised
                { s with data := Option.some (setKey d.key v m), lockHeld := true } ∧
          lookupKey d.key (setKey d.key v m) = Option.some v) ∧
    (∀ t : ConfigState κ, t.lockHeld = true →
        Config.load b t = PyResult.blocked ∧
        Config.save b t = PyResult.blocked ∧
        Config.get b t d = PyResult.blocked ∧
        Config.set b cbFails t d v = PyResult.blocked) := by
  obtain ⟨dta, cbs, lk⟩ := s
  simp only at hlk hd
  subst hlk hd
  refine ⟨?_, ?_, ?_, ?_⟩
  · intro hsave
    simp [Config.save, Config.checkValidity, hsave]
  · intro hps hget
    simp [Config.get, Config.checkValidity, hps, hget]
  · intro hn
    refine ⟨?_, lookupKey_setKey_self d.key v m⟩
    simp [Config.set, Config.checkValidity, hn]
  · intro t htlk
    obtain ⟨tdta, tcbs, tlk⟩ := t
    simp only at htlk
    subst htlk
    cases htd : tdta with
    | some tm =>
        simp [Config.load, Config.save, Config.get, Config.set, Config.checkValidity]
    | none =>
        simp [Config.load, Config.save, Config.get, Config.set, Config.checkValidity]

/-- Fixture: a backend with no saved data whose `save` and `get` raise. -/
def bSaveGetErr : PlatformCfg :=
  ⟨Except.ok Option.none,
   fun _ => Except.error (),
   fun _ => Except.error (),
   fun _ _ => Except.ok ()⟩

/-- Fixture: every `Nat`-handled callback raises when invoked. -/
def cbAlwaysNat : Nat → String → Value → Bool := fun _ _ _ => true

/-- Fixture: a loaded, unlocked store with one registered callback. -/
def sOneCb : ConfigState Nat := ⟨Option.some [], [0], false⟩

/-- C9 witness: at a concrete store, the failing `save` and the failing
callback both leave the lock held (with the new value stored in the `set`
case), and all four operations block on the locked state. -/
theorem exception_leaves_lock_held_witness :
    Config.save bSaveGetErr sOneCb
        = PyResult.raised (⟨Option.some [], [0], true⟩ : ConfigState Nat) ∧
      Config.set bSaveGetErr cbAlwaysNat sOneCb MOVIES_DIRECTORY (Value.str "x")
        = PyResult.raised
            (⟨Option.some [("MoviesDirectory", Value.str "x")], [0], true⟩ :
              ConfigState Nat) ∧
      Config.get bSaveGetErr (⟨Option.some [], [0], true⟩ : ConfigState Nat)
          MOVIES_DIRECTORY = PyResult.blocked :=
  ⟨(exception_leaves_lock_held bSaveGetErr cbAlwaysNat sOneCb []
      MOVIES_DIRECTORY (Value.str "x") rfl rfl).1 rfl,
   ((exception_leaves_lock_held bSaveGetErr cbAlwaysNat sOneCb []
      MOVIES_DIRECTORY (Value.str "x") rfl rfl).2.2.1 (by decide)).1,
   ((exception_leaves_lock_held bSaveGetErr cbAlwaysNat sOneCb []
      MOVIES_DIRECTORY (Value.str "x") rfl rfl).2.2.2
      (⟨Option.some [], [0], true⟩ : ConfigState Nat) rfl).2.2.1⟩

/-! ## Claim C10: set writes only its own key, never the backend -/

/-- C10: `set` never invokes the platform backend (its result depends only
on the backend's `load`, consulted by the validity check), and a successful
`set` on a loaded store changes only the in-memory entry for the
descriptor's key, leaving every other key and the callback set unchanged. -/
theorem set_frame {κ : Type} [DecidableEq κ] (b b' : PlatformCfg)
    (cbFails : κ → String → Value → Bool) (s s' : ConfigState κ)
    (m : PrefData) (d : Pref) (v : Value) (inv : List κ) :
    (b.loadResult = b'.loadResult →
        Config.set b cbFails s d v = Config.set b' cbFails s d v) ∧
    (s.data = Option.some m → Config.set b cbFails s d v = PyResult.ok s' inv →
        s'.callbacks = s.callbacks ∧ s'.lockHeld = false ∧
          s'.data = Option.some (setKey d.key v m) ∧
          lookupKey d.key (setKey d.key v m) = Option.some v ∧
          ∀ k, k ≠ d.key → lookupKey k (setKey d.key v m) = lookupKey k m) := by
  constructor
  · intro hload
    cases hsd : s.data with
    | some m0 => simp [Config.set, Config.checkValidity, hsd]
    | none => simp [Config.set, Config.checkValidity, Config.load, hsd, hload]
  · intro hd h
    obtain ⟨dta, cbs, lk⟩ := s
    simp only at hd
    subst hd
    cases hlk : lk with
    | true => simp [Config.set, Config.checkValidity, hlk] at h
    | false =>
        subst hlk
        unfold Config.set Config.checkValidity at h
        simp only [Bool.false_eq_true, if_false, Option.getD_some] at h
        cases hr : (Config.notifyListeners cbFails d.key v cbs).2 with
        | true => simp only [hr, if_true] at h; cases h
        | false =>
            simp only [hr, Bool.false_eq_true, if_false] at h
            cases h
            exact ⟨rfl, rfl, rfl, lookupKey_setKey_self d.key v m,
              fun k hk => lookupKey_setKey_ne d.key k v m hk⟩

/-- Fixture: same `load` as `bNoData` but `save`/`get`/`set` all raise. -/
def bNoDataOpsErr : PlatformCfg :=
  ⟨Except.ok Option.none,
   fun _ => Except.error (),
   fun _ => Except.error (),
   fun _ _ => Except.error ()⟩

/-- C10 witness: swapping in a backend whose `save`/`get`/`set` raise does
not change what `set` does, and a concrete `set` rewrites only its own key. -/
theorem set_frame_witness :
    Config.set bNoData cbNeverNat sCb LIMIT_UPSTREAM (Value.bool false)
        = Config.set bNoDataOpsErr cbNeverNat sCb LIMIT_UPSTREAM (Value.bool false) ∧
      lookupKey "noFullscreenAlert" (setKey "limitUpstream" (Value.bool false) [])
        = lookupKey "noFullscreenAlert" [] :=
  ⟨(set_frame bNoData bNoDataOpsErr cbNeverNat sCb
      (⟨Option.some [("limitUpstream", Value.bool false)], [], false⟩ : ConfigState Nat)
      [] LIMIT_UPSTREAM (Value.bool false) []).1 rfl,
   ((set_frame bNoData bNoDataOpsErr cbNeverNat sCb
      (⟨Option.some [("limitUpstream", Value.bool false)], [], false⟩ : ConfigState Nat)
      [] LIMIT_UPSTREAM (Value.bool false) []).2 rfl (by decide)).2.2.2.2
      "noFullscreenAlert" (by decide)⟩

/-! ## Claim C1: the movies-directory-gone check -/

/-- C1 counterexample: an existing empty movies directory with a finished
download whose destination lies under it yields gone = true (the claim says
gone = false there), while an existing empty directory with no finished
download yields gone = false (the claim says gone = true there). -/
theorem C1_counterexample :
    movies_directory_gone ⟨true, Option.some []⟩
        [⟨true, "/movies/a.avi"⟩] "/movies" = true ∧
      movies_directory_gone ⟨true, Option.some []⟩ [] "/movies" = false := by
  refine ⟨by decide, by decide⟩

/-- C1 (amended): the check returns gone = true exactly when the directory
does not exist, or listing it raises an access error, or it exists, is
empty, and AT LEAST ONE finished download's destination path lies under it;
so an existing empty directory with no finished download under it gives
gone = false, and an existing directory with any entry gives gone = false
regardless of download state. -/
theorem movies_directory_gone_characterization (dir : DirState)
    (downloads : List RemoteDownload) (movies_dir : String) :
    movies_directory_gone dir downloads movies_dir = true ↔
      (dir.present = false ∨
        (dir.present = true ∧ dir.listing = Option.none) ∨
        (dir.present = true ∧ dir.listing = Option.some [] ∧
          ∃ dl ∈ downloads, dl.isFinished = true ∧
            strStartswith
              (if strEndswith pathSep movies_dir then movies_dir
               else movies_dir ++ pathSep) dl.filename = true)) := by
  obtain ⟨p, listing⟩ := dir
  cases p with
  | false => simp [movies_directory_gone]
  | true =>
      cases listing with
      | none => simp [movies_directory_gone]
      | some contents =>
          cases contents with
          | nil =>
              simp [movies_directory_gone, List.any_eq_true, Bool.and_eq_true]
          | cons x xs => simp [movies_directory_gone]

/-! ## Claim C4: structured startup error in finish_startup -/

/-- C4: when the database restore raises the too-new structured error,
`finish_startup` emits exactly one startup-failure signal carrying that
error's own summary and description, schedules nothing (so
`finalize_startup` never runs), and raises nothing to the caller; moreover
`finalize_startup` is scheduled only when the restore returned normally and
the movies-directory check came back false. -/
theorem finish_startup_failure_isolation (appname : String) (dir : DirState)
    (downloads : List RemoteDownload) (movies_dir : String)
    (handlerSigs : List Sig) (url : String) :
    (finish_startup RestoreOutcome.tooNew appname dir downloads movies_dir
        handlerSigs url
      = ⟨[Sig.startupFailure dbTooNewSummary (dbTooNewDescription appname)],
         [], [], false⟩) ∧
    (∀ restore : RestoreOutcome,
      Task.finalizeStartup ∈ (finish_startup restore appname dir downloads
          movies_dir handlerSigs url).tasks →
        restore = RestoreOutcome.ok ∧
          movies_directory_gone dir downloads movies_dir = false) := by
  constructor
  · rfl
  · intro restore hmem
    cases restore with
    | tooNew =>
        simp [finish_startup, finish_startup_body, startup_function] at hmem
    | fault tb =>
        simp [finish_startup, finish_startup_body, startup_function] at hmem
    | ok =>
        cases hg : movies_directory_gone dir downloads movies_dir with
        | true =>
            simp [finish_startup, finish_startup_body, startup_function, hg] at hmem
        | false => exact ⟨rfl, rfl⟩

/-- C4 witness: with a present, nonempty movies directory the restore's
success path schedules `finalize_startup`, and the reachability direction
recovers that the restore succeeded and the check was false. -/
theorem finish_startup_failure_isolation_witness :
    Task.finalizeStartup ∈ (finish_startup RestoreOutcome.ok "Miro"
        ⟨true, Option.some ["x"]⟩ [] "/m" [] "u").tasks ∧
      movies_directory_gone ⟨true, Option.some ["x"]⟩ [] "/m" = false :=
  ⟨by decide,
   ((finish_startup_failure_isolation "Miro" ⟨true, Option.some ["x"]⟩ [] "/m"
      [] "u").2 RestoreOutcome.ok (by decide)).2⟩

/-! ## Claim C5: unknown faults are translated, not re-raised -/

/-- C5: a non-StartupError fault during a decorated phase is not re-raised
to the caller; the wrapped phase reports exactly one startup-failure signal,
the generic unknown-error one, and logs the full traceback at warning
level — both for `finish_startup` (fault during the restore) and for
`finalize_startup` (fault at any of its steps). -/
theorem unknown_fault_translated (tb url appname movies_dir : String)
    (dir : DirState) (downloads : List RemoteDownload) (handlerSigs : List Sig)
    (i : Nat) :
    ((finish_startup (RestoreOutcome.fault tb) appname dir downloads
        movies_dir handlerSigs url).raisedToCaller = false ∧
      (finish_startup (RestoreOutcome.fault tb) appname dir downloads
          movies_dir handlerSigs url).sigs.filter Sig.isFailure
        = [Sig.startupFailure unknownErrorSummary (unknownErrorDescription url)] ∧
      (finish_startup (RestoreOutcome.fault tb) appname dir downloads
          movies_dir handlerSigs url).logs
        = [LogEntry.warn ("Unknown startup error: " ++ tb)]) ∧
    ((finalize_startup (Option.some i) tb url).raisedToCaller = false ∧
      (finalize_startup (Option.some i) tb url).sigs.filter Sig.isFailure
        = [Sig.startupFailure unknownErrorSummary (unknownErrorDescription url)] ∧
      (finalize_startup (Option.some i) tb url).logs
        = [LogEntry.warn ("Unknown startup error: " ++ tb)]) := by
  refine ⟨⟨rfl, rfl, rfl⟩, ?_, ?_, rfl⟩
  · rfl
  · by_cases h11 : 11 < i
    · simp [finalize_startup, finalize_startup_body, startup_function, h11,
        Sig.isFailure]
    · simp [finalize_startup, finalize_startup_body, startup_function, h11,
        Sig.isFailure]

/-! ## Claim C7: duplicate singleton-feed repair -/

theorem filter_not_mem_drop_one {α : Type} [DecidableEq α] (l : List α)
    (h : l.Nodup) :
    l.filter (fun x => x ∉ l.drop 1) = l.take 1 := by
  cases l with
  | nil => rfl
  | cons a t =>
      have ha : a ∉ t := (List.nodup_cons.mp h).1
      simp only [List.drop_succ_cons, List.drop_zero, List.take_succ_cons,
        List.take_zero, List.filter_cons]
      rw [if_pos (by simpa using ha)]
      have ht : t.filter (fun x => x ∉ t) = [] :=
        List.filter_eq_nil_iff.mpr (fun x hx => by simpa using hx)
      rw [ht]

/-- C7: given at least two database entries matching a singleton feed's URL
in a duplicate-free database, `setup_global_feed` leaves exactly one
matching entry, records exactly the `failed` system warning, and emits no
startup-failure signal (startup is not aborted by the repair). -/
theorem setup_global_feed_repairs_duplicates (url : String) (freshId : Nat)
    (db : List Feed) (hnd : db.Nodup)
    (hdup : 1 < (db.filter (fun f => f.url = url)).length) :
    ((setup_global_feed url freshId db).1.filter (fun f => f.url = url)).length = 1 ∧
      (setup_global_feed url freshId db).2
        = [Sig.failed ("Too many db objects for " ++ url)] ∧
      ∀ sg ∈ (setup_global_feed url freshId db).2, Sig.isFailure sg = false := by
  have hne : ¬ (db.filter (fun f => f.url = url)).length = 0 := by omega
  refine ⟨?_, ?_, ?_⟩
  · simp only [setup_global_feed, hne, if_false, hdup, if_true]
    rw [List.filter_comm]
    rw [filter_not_mem_drop_one _ (hnd.filter _)]
    simp only [List.length_take]
    omega
  · simp only [setup_global_feed, hne, if_false, hdup, if_true]
  · simp only [setup_global_feed, hne, if_false, hdup, if_true]
    intro sg hsg
    simp only [List.mem_singleton] at hsg
    subst hsg
    rfl

/-- C7 witness: two entries for the manual feed's well-known URL collapse to
one, with the warning recorded. -/
theorem setup_global_feed_repairs_duplicates_witness :
    ((setup_global_feed "dtv:manualFeed" 3
        [⟨1, "dtv:manualFeed"⟩, ⟨2, "dtv:manualFeed"⟩]).1.filter
          (fun f => f.url = "dtv:manualFeed")).length = 1 ∧
      (setup_global_feed "dtv:manualFeed" 3
          [⟨1, "dtv:manualFeed"⟩, ⟨2, "dtv:manualFeed"⟩]).2
        = [Sig.failed ("Too many db objects for " ++ "dtv:manualFeed")] :=
  ⟨(setup_global_feed_repairs_duplicates "dtv:manualFeed" 3
      [⟨1, "dtv:manualFeed"⟩, ⟨2, "dtv:manualFeed"⟩] (by decide) (by decide)).1,
   (setup_global_feed_repairs_duplicates "dtv:manualFeed" 3
      [⟨1, "dtv:manualFeed"⟩, ⟨2, "dtv:manualFeed"⟩] (by decide) (by decide)).2.1⟩

end Miro
